import Mathlib

/-!
Verification of the cgo binding layers `dnsrocks/cgo-rocksdb` and `dnswatch/snoop/blazesym`.

Both Go files forward calls to a native library.  The native library is embedded as a
recording fake: every call that crosses the language boundary is appended to a log, and
handles are numbers handed out by the fake.  The Go functions are embedded as pure
functions threading that fake.

* `rocksdb`  embeds `src/dnsrocks/cgo-rocksdb/options.go`
* `blazesym` embeds `src/dnswatch/snoop/blazesym/blazesym.go`
-/

namespace rocksdb

/-! ## Machine integers -/

/-- Conversion of a mathematical integer to Go `int64` (two's complement wrap-around). -/
def wrapInt64 (x : Int) : Int := (x + 2 ^ 63) % 2 ^ 64 - 2 ^ 63

/-- Conversion of a mathematical integer to C `uint64_t` (reduction modulo `2 ^ 64`). -/
def wrapUint64 (x : Int) : Nat := (x % 2 ^ 64).toNat

/-- Go `time.Microsecond`, a `time.Duration` of 1000 nanoseconds. -/
def time_Microsecond : Int := 1000

/-- Go `func (d Duration) Microseconds() int64 { return int64(d) / 1e3 }`;
Go integer division truncates toward zero. -/
def Duration_Microseconds (d : Int) : Int := Int.tdiv d 1000

/-! ## RocksDB-compatible boolean values (cgo preamble of options.go) -/

/-- The C constant `const unsigned char BOOL_CHAR_FALSE = 0;`. -/
def BOOL_CHAR_FALSE : Nat := 0

/-- The C constant `const unsigned char BOOL_CHAR_TRUE = 1;`. -/
def BOOL_CHAR_TRUE : Nat := 1

/-- The C constant `const int BOOL_INT_FALSE = 0;`. -/
def BOOL_INT_FALSE : Int := 0

/-- The C constant `const int BOOL_INT_TRUE = 1;`. -/
def BOOL_INT_TRUE : Int := 1

/-- BoolToChar is a helper to convert boolean value to C.uchar. -/
def BoolToChar (b : Bool) : Nat :=
  if b then BOOL_CHAR_TRUE else BOOL_CHAR_FALSE

/-- CharToBool converts C.uchar to boolean. -/
def CharToBool (cChar : Nat) : Bool :=
  cChar != BOOL_CHAR_FALSE

/-- DefaultCompactionMemtableMemoryBudget is the default for compaction memory usage. -/
def DefaultCompactionMemtableMemoryBudget : Nat := 512 * 1024 * 1024

/-! ## The recording fake of the native layer -/

/-- A native pointer, as handed out by the fake; the Go side never looks inside. -/
abbrev Handle := Nat

/-- One call that leaves options.go.  The constructors named `rocksdb_*` are functions of
the RocksDB C API; the remaining four are the methods of `BlockBasedOptions`, which this
package defines in another file and which are recorded as calls of their own. -/
inductive Call where
  | rocksdb_options_create (ret : Handle)
  | rocksdb_options_optimize_level_style_compaction (opt : Handle) (memtable_memory_budget : Nat)
  | rocksdb_options_optimize_universal_style_compaction (opt : Handle) (memtable_memory_budget : Nat)
  | rocksdb_options_set_block_based_table_factory (opt : Handle) (table_options : Handle)
  | rocksdb_options_destroy (opt : Handle)
  | NewBlockBasedOptions (ret : Handle)
  | BlockBasedOptions_SetLRUCache (b : Handle) (capacity : Int) (cache : Handle)
  | BlockBasedOptions_SetFullBloomFilter (b : Handle) (fullBloomBits : Int)
  | BlockBasedOptions_FreeBlockBasedOptions (b : Handle)
  | rocksdb_writeoptions_create (ret : Handle)
  | rocksdb_writeoptions_set_sync (opt : Handle) (v : Nat)
  | rocksdb_writeoptions_disable_WAL (opt : Handle) (disable : Int)
  | rocksdb_writeoptions_set_ignore_missing_column_families (opt : Handle) (v : Nat)
  | rocksdb_writeoptions_set_no_slowdown (opt : Handle) (v : Nat)
  | rocksdb_writeoptions_set_low_pri (opt : Handle) (v : Nat)
  | rocksdb_readoptions_create (ret : Handle)
  | rocksdb_readoptions_set_verify_checksums (opt : Handle) (v : Nat)
  | rocksdb_readoptions_set_fill_cache (opt : Handle) (v : Nat)
  | rocksdb_options_set_write_buffer_size (opt : Handle) (s : Nat)
  | rocksdb_options_set_target_file_size_base (opt : Handle) (s : Nat)
  | rocksdb_options_set_max_bytes_for_level_base (opt : Handle) (s : Nat)
  | rocksdb_options_set_compression_per_level (opt : Handle) (level_values : List Int)
      (num_levels : Nat)
  deriving DecidableEq, Repr

/-- State of the recording fake: the calls seen so far, oldest first, and the next
handle it will hand out. -/
structure Native where
  log : List Call
  next : Handle
  deriving DecidableEq, Repr

/-- Record one call. -/
def Native.emit (n : Native) (c : Call) : Native :=
  { n with log := n.log ++ [c] }

/-- The calls recorded between two states of the fake. -/
def issued (before after : Native) : List Call :=
  after.log.drop before.log.length

/-- Value a field of the fake holds after a list of calls: the argument of the last
call picked by `sel`, and `none` while no such call was made, that is while the field is
still at its native default. -/
def fieldAfter (sel : Call → Option Int) (calls : List Call) : Option Int :=
  (calls.filterMap sel).getLast?

/-! ## Options -/

/-- LRUCache wraps a native block cache; only the handle is kept. -/
structure LRUCache where
  cCache : Handle
  deriving DecidableEq, Repr

/-- Modelled from the spec: the nested block-cache configuration `BlockBasedOptions`
is declared in a file of this package that is not among the given sources.  The two fields
are the ones options.go reads (`cBlockBasedOptions`, `lruCache`). -/
structure BlockBasedOptions where
  cBlockBasedOptions : Handle
  lruCache : Option LRUCache
  deriving DecidableEq, Repr

/-- Modelled from the spec: `NewBlockBasedOptions` allocates a nested cache
configuration; its body is not among the given sources.  The allocation is recorded as one
call returning a fresh handle. -/
def NewBlockBasedOptions (n : Native) : BlockBasedOptions × Native :=
  ({ cBlockBasedOptions := n.next, lruCache := none },
   { log := n.log ++ [Call.NewBlockBasedOptions n.next], next := n.next + 1 })

/-- Modelled from the spec: `BlockBasedOptions.SetLRUCache` enables an LRU cache of the
given capacity; its body is not among the given sources.  It is recorded as one call that
installs a fresh cache. -/
def BlockBasedOptions.SetLRUCache (b : BlockBasedOptions) (capacity : Int) (n : Native) :
    BlockBasedOptions × Native :=
  ({ b with lruCache := some { cCache := n.next } },
   { log := n.log ++ [Call.BlockBasedOptions_SetLRUCache b.cBlockBasedOptions capacity n.next],
     next := n.next + 1 })

/-- Modelled from the spec: `BlockBasedOptions.SetFullBloomFilter` enables the full bloom
filter; its body is not among the given sources.  It is recorded as one call. -/
def BlockBasedOptions.SetFullBloomFilter (b : BlockBasedOptions) (fullBloomBits : Int)
    (n : Native) : Native :=
  n.emit (Call.BlockBasedOptions_SetFullBloomFilter b.cBlockBasedOptions fullBloomBits)

/-- Modelled from the spec: `BlockBasedOptions.FreeBlockBasedOptions` releases the nested
cache configuration; its body is not among the given sources.  It is recorded as one
call. -/
def BlockBasedOptions.FreeBlockBasedOptions (b : BlockBasedOptions) (n : Native) : Native :=
  n.emit (Call.BlockBasedOptions_FreeBlockBasedOptions b.cBlockBasedOptions)

/-- Options represents DB-level connection options.  `blockBasedOptions` is a Go pointer:
`none` is `nil`. -/
structure Options where
  cOptions : Handle
  blockBasedOptions : Option BlockBasedOptions
  deriving DecidableEq, Repr

/-- NewOptions creates and returns default Options structure. -/
def NewOptions (n : Native) : Options × Native :=
  let cOptions := n.next
  ({ cOptions := cOptions, blockBasedOptions := none },
   { log := n.log ++ [Call.rocksdb_options_create cOptions], next := n.next + 1 })

/-- OptimizeLevelStyleCompaction: memtableMemoryBudget = 0 will set the default value. -/
def Options.OptimizeLevelStyleCompaction (options : Options) (memtableMemoryBudget : Nat)
    (n : Native) : Native :=
  let memtableMemoryBudget :=
    if memtableMemoryBudget = 0 then DefaultCompactionMemtableMemoryBudget
    else memtableMemoryBudget
  n.emit (Call.rocksdb_options_optimize_level_style_compaction options.cOptions
    memtableMemoryBudget)

/-- OptimizeUniversalStyleCompaction: memtableMemoryBudget = 0 will set the default value. -/
def Options.OptimizeUniversalStyleCompaction (options : Options) (memtableMemoryBudget : Nat)
    (n : Native) : Native :=
  let memtableMemoryBudget :=
    if memtableMemoryBudget = 0 then DefaultCompactionMemtableMemoryBudget
    else memtableMemoryBudget
  n.emit (Call.rocksdb_options_optimize_universal_style_compaction options.cOptions
    memtableMemoryBudget)

/-- SetFullBloomFilter activates full Bloom filter. -/
def Options.SetFullBloomFilter (options : Options) (fullBloomBits : Int) (n : Native) :
    Options × Native :=
  let (b, n1) :=
    match options.blockBasedOptions with
    | none => NewBlockBasedOptions n
    | some b => (b, n)
  let n2 := b.SetFullBloomFilter fullBloomBits n1
  ({ options with blockBasedOptions := some b },
   n2.emit (Call.rocksdb_options_set_block_based_table_factory options.cOptions
     b.cBlockBasedOptions))

/-- SetLRUCacheSize activates LRU Cache. -/
def Options.SetLRUCacheSize (options : Options) (capacity : Int) (n : Native) :
    Options × Native :=
  let (b, n1) :=
    match options.blockBasedOptions with
    | none => NewBlockBasedOptions n
    | some b => (b, n)
  let (b, n2) := b.SetLRUCache capacity n1
  ({ options with blockBasedOptions := some b },
   n2.emit (Call.rocksdb_options_set_block_based_table_factory options.cOptions
     b.cBlockBasedOptions))

/-- GetCache provides access to block cache. -/
def Options.GetCache (options : Options) : Option LRUCache :=
  match options.blockBasedOptions with
  | none => none
  | some b => b.lruCache

/-- FreeOptions frees up the memory previously allocated by NewOptions. -/
def Options.FreeOptions (options : Options) (n : Native) : Native :=
  let n1 :=
    match options.blockBasedOptions with
    | some b => b.FreeBlockBasedOptions n
    | none => n
  n1.emit (Call.rocksdb_options_destroy options.cOptions)

/-- Recognises a destroy of a top-level native options handle. -/
def Call.isOptionsDestroy : Call → Bool
  | Call.rocksdb_options_destroy _ => true
  | _ => false

/-- Recognises a release of a nested block-cache configuration. -/
def Call.isNestedRelease : Call → Bool
  | Call.BlockBasedOptions_FreeBlockBasedOptions _ => true
  | _ => false

/-! ## Write options -/

/-- WriteOptions is a set of options for write operations. -/
structure WriteOptions where
  cWriteOptions : Handle
  deriving DecidableEq, Repr

/-- NewDefaultWriteOptions creates WriteOptions object with default properties. -/
def NewDefaultWriteOptions (n : Native) : WriteOptions × Native :=
  ({ cWriteOptions := n.next },
   { log := n.log ++ [Call.rocksdb_writeoptions_create n.next], next := n.next + 1 })

/-- NewWriteOptions creates WriteOptions object; each flag is forwarded only when set. -/
def NewWriteOptions (syncOnWrite disableWAL ignoreMissingColumnFamilies failOnSlowDown
    lowPriority : Bool) (n : Native) : WriteOptions × Native :=
  let (writeOptions, n) := NewDefaultWriteOptions n
  let cWriteOptions := writeOptions.cWriteOptions
  let n := if syncOnWrite then
      n.emit (Call.rocksdb_writeoptions_set_sync cWriteOptions BOOL_CHAR_TRUE)
    else n
  let n := if disableWAL then
      n.emit (Call.rocksdb_writeoptions_disable_WAL cWriteOptions BOOL_INT_TRUE)
    else n
  let n := if ignoreMissingColumnFamilies then
      n.emit (Call.rocksdb_writeoptions_set_ignore_missing_column_families cWriteOptions
        BOOL_CHAR_TRUE)
    else n
  let n := if failOnSlowDown then
      n.emit (Call.rocksdb_writeoptions_set_no_slowdown cWriteOptions BOOL_CHAR_TRUE)
    else n
  let n := if lowPriority then
      n.emit (Call.rocksdb_writeoptions_set_low_pri cWriteOptions BOOL_CHAR_TRUE)
    else n
  (writeOptions, n)

/-- Recognises the five native setters of a write-options handle. -/
def Call.isWriteSetter : Call → Bool
  | Call.rocksdb_writeoptions_set_sync _ _ => true
  | Call.rocksdb_writeoptions_disable_WAL _ _ => true
  | Call.rocksdb_writeoptions_set_ignore_missing_column_families _ _ => true
  | Call.rocksdb_writeoptions_set_no_slowdown _ _ => true
  | Call.rocksdb_writeoptions_set_low_pri _ _ => true
  | _ => false

/-- Argument of a `rocksdb_writeoptions_set_sync` call on handle `h`. -/
def Call.sync? (h : Handle) : Call → Option Int
  | Call.rocksdb_writeoptions_set_sync o v => if o = h then some (v : Int) else none
  | _ => none

/-- Argument of a `rocksdb_writeoptions_disable_WAL` call on handle `h`. -/
def Call.disableWAL? (h : Handle) : Call → Option Int
  | Call.rocksdb_writeoptions_disable_WAL o v => if o = h then some v else none
  | _ => none

/-- Argument of a `rocksdb_writeoptions_set_ignore_missing_column_families` call on `h`. -/
def Call.ignoreMissingColumnFamilies? (h : Handle) : Call → Option Int
  | Call.rocksdb_writeoptions_set_ignore_missing_column_families o v =>
      if o = h then some (v : Int) else none
  | _ => none

/-- Argument of a `rocksdb_writeoptions_set_no_slowdown` call on handle `h`. -/
def Call.noSlowdown? (h : Handle) : Call → Option Int
  | Call.rocksdb_writeoptions_set_no_slowdown o v => if o = h then some (v : Int) else none
  | _ => none

/-- Argument of a `rocksdb_writeoptions_set_low_pri` call on handle `h`. -/
def Call.lowPri? (h : Handle) : Call → Option Int
  | Call.rocksdb_writeoptions_set_low_pri o v => if o = h then some (v : Int) else none
  | _ => none

/-! ## Read options -/

/-- ReadOptions is a set of options for read operations. -/
structure ReadOptions where
  cReadOptions : Handle
  deriving DecidableEq, Repr

/-- NewDefaultReadOptions creates ReadOptions object with default properties. -/
def NewDefaultReadOptions (n : Native) : ReadOptions × Native :=
  ({ cReadOptions := n.next },
   { log := n.log ++ [Call.rocksdb_readoptions_create n.next], next := n.next + 1 })

/-- SetVerifyChecksums sets verify_checksums flag. -/
def ReadOptions.SetVerifyChecksums (readOptions : ReadOptions) (verifyChecksum : Bool)
    (n : Native) : Native :=
  n.emit (Call.rocksdb_readoptions_set_verify_checksums readOptions.cReadOptions
    (BoolToChar verifyChecksum))

/-- SetFillCache sets fill_cache flag. -/
def ReadOptions.SetFillCache (readOptions : ReadOptions) (fillCache : Bool) (n : Native) :
    Native :=
  n.emit (Call.rocksdb_readoptions_set_fill_cache readOptions.cReadOptions
    (BoolToChar fillCache))

/-- NewReadOptions creates ReadOptions object. -/
def NewReadOptions (verifyChecksum fillCache : Bool) (n : Native) : ReadOptions × Native :=
  let (readOptions, n) := NewDefaultReadOptions n
  let n := readOptions.SetVerifyChecksums verifyChecksum n
  let n := readOptions.SetFillCache fillCache n
  (readOptions, n)

/-- Recognises the two native setters of a read-options handle used by NewReadOptions. -/
def Call.isReadSetter : Call → Bool
  | Call.rocksdb_readoptions_set_verify_checksums _ _ => true
  | Call.rocksdb_readoptions_set_fill_cache _ _ => true
  | _ => false

/-- Argument of a `rocksdb_readoptions_set_verify_checksums` call on handle `h`. -/
def Call.verifyChecksums? (h : Handle) : Call → Option Int
  | Call.rocksdb_readoptions_set_verify_checksums o v => if o = h then some (v : Int) else none
  | _ => none

/-- Argument of a `rocksdb_readoptions_set_fill_cache` call on handle `h`. -/
def Call.fillCache? (h : Handle) : Call → Option Int
  | Call.rocksdb_readoptions_set_fill_cache o v => if o = h then some (v : Int) else none
  | _ => none

/-- A fake that has seen no call yet. -/
def Native.fresh : Native := { log := [], next := 1 }

/-! ## Wait-for-compaction options -/

/-- The native object behind `rocksdb_wait_for_compact_options_t*`: the fake keeps every
forwarded value verbatim, booleans as `unsigned char`, the timeout as `uint64_t`
microseconds. -/
structure rocksdb_wait_for_compact_options_t where
  abort_on_pause : Nat
  flush : Nat
  close_db : Nat
  timeout : Nat
  deriving DecidableEq, Repr

/-- WaitForCompactOptions is a set of options for WaitForCompact call. -/
structure WaitForCompactOptions where
  cOptions : rocksdb_wait_for_compact_options_t
  deriving DecidableEq, Repr

/-- SetAbortOnPause sets option to abort waiting in case of a pause. -/
def WaitForCompactOptions.SetAbortOnPause (options : WaitForCompactOptions) (v : Bool) :
    WaitForCompactOptions :=
  { cOptions := { options.cOptions with abort_on_pause := BoolToChar v } }

/-- GetAbortOnPause returns value of AbortOnPause option. -/
def WaitForCompactOptions.GetAbortOnPause (options : WaitForCompactOptions) : Bool :=
  CharToBool options.cOptions.abort_on_pause

/-- SetFlush sets option to flush all column families before starting to wait. -/
def WaitForCompactOptions.SetFlush (options : WaitForCompactOptions) (v : Bool) :
    WaitForCompactOptions :=
  { cOptions := { options.cOptions with flush := BoolToChar v } }

/-- GetFlush returns value of Flush option. -/
def WaitForCompactOptions.GetFlush (options : WaitForCompactOptions) : Bool :=
  CharToBool options.cOptions.flush

/-- SetCloseDB sets option to call Close() after waiting is done. -/
def WaitForCompactOptions.SetCloseDB (options : WaitForCompactOptions) (v : Bool) :
    WaitForCompactOptions :=
  { cOptions := { options.cOptions with close_db := BoolToChar v } }

/-- GetCloseDB returns value of CloseDB option. -/
def WaitForCompactOptions.GetCloseDB (options : WaitForCompactOptions) : Bool :=
  CharToBool options.cOptions.close_db

/-- SetTimeout sets timeout for waiting for compaction to complete:
`C.uint64_t(d.Microseconds())` is forwarded. -/
def WaitForCompactOptions.SetTimeout (options : WaitForCompactOptions) (d : Int) :
    WaitForCompactOptions :=
  { cOptions := { options.cOptions with timeout := wrapUint64 (Duration_Microseconds d) } }

/-- GetTimeout returns value of Timeout option: `time.Duration(t) * time.Microsecond`,
both the conversion and the product in `int64`. -/
def WaitForCompactOptions.GetTimeout (options : WaitForCompactOptions) : Int :=
  let t := options.cOptions.timeout
  wrapInt64 (wrapInt64 (t : Int) * time_Microsecond)

/-- A wait policy all of whose native fields are zero. -/
def WaitForCompactOptions.zero : WaitForCompactOptions :=
  { cOptions := { abort_on_pause := 0, flush := 0, close_db := 0, timeout := 0 } }

end rocksdb

namespace blazesym

/-- The sentinel returned when no symbol is known. -/
def UnknownSymbol : String := "[Unknown]"

/-- BlazeErr represents an error code from the blazesym library. -/
abbrev BlazeErr := Int

def BLAZE_ERR_OK : BlazeErr := 0
def BLAZE_ERR_NOT_FOUND : BlazeErr := -2
def BLAZE_ERR_PERMISSION_DENIED : BlazeErr := -1
def BLAZE_ERR_ALREADY_EXISTS : BlazeErr := -17
def BLAZE_ERR_WOULD_BLOCK : BlazeErr := -11
def BLAZE_ERR_INVALID_DATA : BlazeErr := -22
def BLAZE_ERR_TIMED_OUT : BlazeErr := -110
def BLAZE_ERR_UNSUPPORTED : BlazeErr := -95
def BLAZE_ERR_OUT_OF_MEMORY : BlazeErr := -12
def BLAZE_ERR_INVALID_INPUT : BlazeErr := -256
def BLAZE_ERR_WRITE_ZERO : BlazeErr := -257
def BLAZE_ERR_UNEXPECTED_EOF : BlazeErr := -258
def BLAZE_ERR_INVALID_DWARF : BlazeErr := -259
def BLAZE_ERR_OTHER : BlazeErr := -260

/-- The enumerated error codes other than `BLAZE_ERR_OK`. -/
def enumeratedErrors : List BlazeErr :=
  [BLAZE_ERR_NOT_FOUND, BLAZE_ERR_PERMISSION_DENIED, BLAZE_ERR_ALREADY_EXISTS,
   BLAZE_ERR_WOULD_BLOCK, BLAZE_ERR_INVALID_DATA, BLAZE_ERR_TIMED_OUT, BLAZE_ERR_UNSUPPORTED,
   BLAZE_ERR_OUT_OF_MEMORY, BLAZE_ERR_INVALID_INPUT, BLAZE_ERR_WRITE_ZERO,
   BLAZE_ERR_UNEXPECTED_EOF, BLAZE_ERR_INVALID_DWARF, BLAZE_ERR_OTHER]

/-- The fields of the C `struct blaze_sym` that Symbolize reads.  `name` is a
`const char*`: `none` is the NULL pointer, `some s` a C string with contents `s`. -/
structure blaze_sym where
  name : Option String
  addr : Nat
  offset : Nat
  deriving DecidableEq, Repr

/-- The C `blaze_result`: `cnt` entries stored in the trailing array `syms`. -/
structure blaze_result where
  syms : List blaze_sym
  deriving DecidableEq, Repr

/-- The field `cnt` of a result, the number of entries of `syms`. -/
def blaze_result.cnt (res : blaze_result) : Nat := res.syms.length

/-- The cgo helper `struct blaze_sym get_result(blaze_result* res) { return res->syms[0]; }`;
`none` when the array has no first entry. -/
def get_result (res : blaze_result) : Option blaze_sym := res.syms.head?

/-- The cgo conversion `C.GoString`: the empty string for NULL, the contents otherwise. -/
def GoString (p : Option String) : String :=
  match p with
  | none => ""
  | some s => s

/-- A fake of the native symbolizer.  `blaze_symbolize_process_abs_addrs pid addr` is the
result pointer the resolve call returns (`none` is NULL), `blaze_err_last pid addr` the
last error code once that call has returned, `blaze_err_str` the string of a code. -/
structure Symbolizer where
  blaze_symbolize_process_abs_addrs : Nat → Nat → Option blaze_result
  blaze_err_last : Nat → Nat → BlazeErr
  blaze_err_str : BlazeErr → String

/-- What the recording fake logs: native calls and reads of the native result buffer. -/
inductive Event where
  | blaze_symbolize_process_abs_addrs (pid addr : Nat) (ret : Option blaze_result)
  | blaze_err_last (ret : BlazeErr)
  | blaze_err_str (code : BlazeErr)
  | read_cnt
  | get_result
  | GoString_name
  | blaze_result_free
  deriving DecidableEq, Repr

/-- BlazeErr.Error: a Go error whose message is the backend's string for the code. -/
def BlazeErr.Error (s : Symbolizer) (e : BlazeErr) : String :=
  s.blaze_err_str e

/-- Symbolize symbolizes an address using the Blazesym symbolizer.
The first component is `none` when the Go code dereferences a nil result pointer, and
otherwise the returned pair: the string and the error (`none` is a nil error, `some msg`
an error with message `msg`).  The second component is the log of the call.  `get_result`
returns the entry by value, so the `addr` and `offset` formatted after the release are read
from that Go-side copy and not from the buffer. -/
def Symbolizer.Symbolize (s : Symbolizer) (pid addr : Nat) :
    Option (String × Option String) × List Event :=
  let symbolized := s.blaze_symbolize_process_abs_addrs pid addr
  let log := [Event.blaze_symbolize_process_abs_addrs pid addr symbolized]
  let lastErr := s.blaze_err_last pid addr
  let log := log ++ [Event.blaze_err_last lastErr]
  if lastErr ≠ BLAZE_ERR_OK then
    (some (UnknownSymbol, some (BlazeErr.Error s lastErr)), log ++ [Event.blaze_err_str lastErr])
  else
    match symbolized with
    | none => (none, log)
    | some symbolized =>
      let log := log ++ [Event.read_cnt]
      if symbolized.cnt = 0 then
        (some (UnknownSymbol, none), log)
      else
        match get_result symbolized with
        | none => (none, log)
        | some symbolizedResult =>
          let log := log ++ [Event.get_result]
          let name := GoString symbolizedResult.name
          let log := log ++ [Event.GoString_name]
          if name.length = 0 then
            let log := log ++ [Event.blaze_result_free]
            (some (toString symbolizedResult.addr ++ " : " ++ toString symbolizedResult.offset
              ++ " <No symbol>", none), log)
          else
            let log := log ++ [Event.blaze_result_free]
            (some (name, none), log)

/-- Number of result buffers the resolve calls of a log handed to the caller. -/
def obtained (log : List Event) : Nat :=
  log.countP fun e =>
    match e with
    | Event.blaze_symbolize_process_abs_addrs _ _ (some _) => true
    | _ => false

/-- Number of `blaze_result_free` calls of a log. -/
def released (log : List Event) : Nat :=
  log.count Event.blaze_result_free

/-- Recognises a read of the native result buffer. -/
def Event.isBufferRead : Event → Bool
  | Event.read_cnt => true
  | Event.get_result => true
  | Event.GoString_name => true
  | _ => false

/-- Number of reads of the result buffer that follow the first `blaze_result_free`. -/
def readsAfterFree : List Event → Nat
  | [] => 0
  | Event.blaze_result_free :: rest => rest.countP Event.isBufferRead
  | _ :: rest => readsAfterFree rest

/-- A fake backend whose every call fails with `BLAZE_ERR_NOT_FOUND` and returns NULL. -/
def fakeNotFound : Symbolizer :=
  { blaze_symbolize_process_abs_addrs := fun _ _ => none
    blaze_err_last := fun _ _ => BLAZE_ERR_NOT_FOUND
    blaze_err_str := fun e => if e = BLAZE_ERR_NOT_FOUND then "not found" else "other error" }

/-- A fake backend that succeeds with the given result buffer. -/
def fakeOk (res : blaze_result) : Symbolizer :=
  { blaze_symbolize_process_abs_addrs := fun _ _ => some res
    blaze_err_last := fun _ _ => BLAZE_ERR_OK
    blaze_err_str := fun _ => "success" }

end blazesym

namespace rocksdb

/-! ## Size setters and per-level compression -/

/-- Conversion of a mathematical integer to C `int` (32-bit two's complement wrap-around). -/
def wrapInt32 (x : Int) : Int := (x + 2 ^ 31) % 2 ^ 32 - 2 ^ 31

/-- SetWriteBufferSize sets the write_buffer_size option; `C.size_t(size)` is forwarded,
`size` being a Go `int` (64 bits) and `size_t` an unsigned 64-bit integer. -/
def Options.SetWriteBufferSize (options : Options) (size : Int) (n : Native) : Native :=
  n.emit (Call.rocksdb_options_set_write_buffer_size options.cOptions (wrapUint64 size))

/-- SetTargetFileSizeBase sets target_file_size_base option; `C.uint64_t(size)` is
forwarded. -/
def Options.SetTargetFileSizeBase (options : Options) (size : Int) (n : Native) : Native :=
  n.emit (Call.rocksdb_options_set_target_file_size_base options.cOptions (wrapUint64 size))

/-- SetMaxBytesForLevelBase sets max_bytes_for_level_base option; `C.uint64_t(size)` is
forwarded. -/
def Options.SetMaxBytesForLevelBase (options : Options) (size : Int) (n : Native) : Native :=
  n.emit (Call.rocksdb_options_set_max_bytes_for_level_base options.cOptions (wrapUint64 size))

/-- The unsigned size carried by a call of one of the three size setters. -/
def Call.size? : Call → Option Nat
  | Call.rocksdb_options_set_write_buffer_size _ s => some s
  | Call.rocksdb_options_set_target_file_size_base _ s => some s
  | Call.rocksdb_options_set_max_bytes_for_level_base _ s => some s
  | _ => none

/-- CompressionType specifies the compression we use: a Go `uint`. -/
abbrev CompressionType := Nat

/-- The loop `for i, v := range levelValues { cValues[i] = C.int(v) }`, started at index
`i` on the remaining values. -/
def fillLevels : Nat → List CompressionType → List Int → List Int
  | _, [], cValues => cValues
  | i, v :: rest, cValues => fillLevels (i + 1) rest (cValues.set i (wrapInt32 (v : Int)))

/-- SetCompressionPerLevel sets different compression algorithm per level.
`cValues` is `make([]C.int, len(levelValues))` filled by the loop; the argument
`&cValues[0]` indexes the slice, which in Go fails with an index-out-of-range panic when
the slice is empty: that outcome is `none`. -/
def Options.SetCompressionPerLevel (options : Options) (levelValues : List CompressionType)
    (n : Native) : Option Native :=
  let cValues := fillLevels 0 levelValues (List.replicate levelValues.length 0)
  match cValues.head? with
  | none => none
  | some _ =>
    some (n.emit (Call.rocksdb_options_set_compression_per_level options.cOptions cValues
      levelValues.length))

/-! ## Sequences of cache setter calls -/

/-- One call of a cache setter of `Options`. -/
inductive CacheOp where
  | SetLRUCacheSize (capacity : Int)
  | SetFullBloomFilter (fullBloomBits : Int)
  deriving DecidableEq, Repr

/-- Perform one cache setter call. -/
def CacheOp.run (op : CacheOp) (st : Options × Native) : Options × Native :=
  match op with
  | CacheOp.SetLRUCacheSize capacity => st.1.SetLRUCacheSize capacity st.2
  | CacheOp.SetFullBloomFilter fullBloomBits => st.1.SetFullBloomFilter fullBloomBits st.2

/-- Perform a sequence of cache setter calls, first to last. -/
def runCacheOps (ops : List CacheOp) (st : Options × Native) : Options × Native :=
  ops.foldl (fun st op => op.run st) st

/-- Recognises an allocation of a nested block-cache configuration. -/
def Call.isNestedAlloc : Call → Bool
  | Call.NewBlockBasedOptions _ => true
  | _ => false

/-- Recognises a registration of a nested configuration with a parent handle. -/
def Call.isRegistration : Call → Bool
  | Call.rocksdb_options_set_block_based_table_factory _ _ => true
  | _ => false

end rocksdb

/-! # Theorems -/

namespace rocksdb

/-- Dropping the old log from an extended log leaves the calls that were appended. -/
theorem issued_append (n : Native) (calls : List Call) (k : Handle) :
    issued n { log := n.log ++ calls, next := k } = calls := by
  simp [issued]

/-- The calls recorded by `emit` are the single emitted call. -/
theorem issued_emit (n : Native) (c : Call) : issued n (n.emit c) = [c] := by
  simp [issued, Native.emit]

/-- C1: for both compaction presets the budget forwarded to the native library is
`DefaultCompactionMemtableMemoryBudget = 512 * 1024 * 1024 = 536870912` when the caller
passes 0 and the caller's own value for every non-zero uint64 budget; the forwarded value
is never zero and is again a uint64. -/
theorem presets_forward_budget_or_default (options : Options) (n : Native)
    (memtableMemoryBudget : Nat) (h : memtableMemoryBudget < 2 ^ 64) :
    issued n (options.OptimizeLevelStyleCompaction memtableMemoryBudget n) =
        [Call.rocksdb_options_optimize_level_style_compaction options.cOptions
          (if memtableMemoryBudget = 0 then 536870912 else memtableMemoryBudget)] ∧
    issued n (options.OptimizeUniversalStyleCompaction memtableMemoryBudget n) =
        [Call.rocksdb_options_optimize_universal_style_compaction options.cOptions
          (if memtableMemoryBudget = 0 then 536870912 else memtableMemoryBudget)] ∧
    (if memtableMemoryBudget = 0 then 536870912 else memtableMemoryBudget) ≠ 0 ∧
    (if memtableMemoryBudget = 0 then 536870912 else memtableMemoryBudget) < 2 ^ 64 ∧
    DefaultCompactionMemtableMemoryBudget = 512 * 1024 * 1024 ∧
    DefaultCompactionMemtableMemoryBudget = 536870912 := by
  refine ⟨?_, ?_, ?_, ?_, rfl, rfl⟩
  · simp [Options.OptimizeLevelStyleCompaction, issued_emit,
      DefaultCompactionMemtableMemoryBudget]
  · simp [Options.OptimizeUniversalStyleCompaction, issued_emit,
      DefaultCompactionMemtableMemoryBudget]
  · split
    · decide
    · assumption
  · split
    · decide
    · exact h

/-- C1 at the zero budget on a fresh fake: both presets forward 536870912. -/
theorem presets_forward_budget_or_default_witness :
    (0 : Nat) < 2 ^ 64 ∧
    issued Native.fresh
        (Options.OptimizeLevelStyleCompaction { cOptions := 1, blockBasedOptions := none } 0
          Native.fresh) =
      [Call.rocksdb_options_optimize_level_style_compaction 1 536870912] ∧
    issued Native.fresh
        (Options.OptimizeUniversalStyleCompaction { cOptions := 1, blockBasedOptions := none } 0
          Native.fresh) =
      [Call.rocksdb_options_optimize_universal_style_compaction 1 536870912] :=
  have t := presets_forward_budget_or_default { cOptions := 1, blockBasedOptions := none }
    Native.fresh 0 (by decide)
  ⟨by decide, t.1, t.2.1⟩

end rocksdb

namespace blazesym

/-- A string of length zero is the empty string. -/
theorem eq_empty_of_length_eq_zero (s : String) (h : s.length = 0) : s = "" := by
  cases s with
  | mk data =>
    have hd : data = [] := List.length_eq_zero.mp h
    subst hd
    rfl

/-- The result of Symbolize when the backend reports no error and hands back a buffer
whose first entry is `sym`. -/
theorem Symbolize_found (s : Symbolizer) (pid addr : Nat) (sym : blaze_sym)
    (rest : List blaze_sym) (hOk : s.blaze_err_last pid addr = BLAZE_ERR_OK)
    (hres : s.blaze_symbolize_process_abs_addrs pid addr = some { syms := sym :: rest }) :
    s.Symbolize pid addr =
      (some (if GoString sym.name = "" then
               toString sym.addr ++ " : " ++ toString sym.offset ++ " <No symbol>"
             else GoString sym.name, none),
       [Event.blaze_symbolize_process_abs_addrs pid addr (some { syms := sym :: rest }),
        Event.blaze_err_last BLAZE_ERR_OK, Event.read_cnt, Event.get_result,
        Event.GoString_name, Event.blaze_result_free]) := by
  by_cases hn : GoString sym.name = ""
  · simp [Symbolizer.Symbolize, hOk, hres, blaze_result.cnt, get_result, hn]
  · have hl : ¬ (GoString sym.name).length = 0 := fun h => hn (eq_empty_of_length_eq_zero _ h)
    simp [Symbolizer.Symbolize, hOk, hres, blaze_result.cnt, get_result, hn, hl]

/-- C2: whenever the last error after the resolve call is not `BLAZE_ERR_OK`, whatever
result pointer the resolve call returned, Symbolize returns the sentinel `"[Unknown]"`
together with a non-nil error whose message is the backend's string for exactly that
code; every enumerated code other than OK is such a code. -/
theorem Symbolize_error_path (s : Symbolizer) (pid addr : Nat)
    (h : s.blaze_err_last pid addr ≠ BLAZE_ERR_OK) :
    (s.Symbolize pid addr).1 =
        some (UnknownSymbol, some (s.blaze_err_str (s.blaze_err_last pid addr))) ∧
    UnknownSymbol = "[Unknown]" ∧
    BlazeErr.Error s (s.blaze_err_last pid addr) = s.blaze_err_str (s.blaze_err_last pid addr) ∧
    ∀ e ∈ enumeratedErrors, e ≠ BLAZE_ERR_OK := by
  refine ⟨?_, rfl, rfl, by decide⟩
  simp [Symbolizer.Symbolize, h, BlazeErr.Error]

/-- C2 on a backend that reports `BLAZE_ERR_NOT_FOUND`. -/
theorem Symbolize_error_path_witness :
    fakeNotFound.blaze_err_last 7 4096 ≠ BLAZE_ERR_OK ∧
    (fakeNotFound.Symbolize 7 4096).1 = some ("[Unknown]", some "not found") :=
  ⟨by decide, (Symbolize_error_path fakeNotFound 7 4096 (by decide)).1⟩

/-- C3: when the backend reports `BLAZE_ERR_OK` and returns a result with `cnt = 0`,
Symbolize returns the sentinel `"[Unknown]"` with a nil error. -/
theorem Symbolize_zero_results (s : Symbolizer) (pid addr : Nat) (res : blaze_result)
    (hOk : s.blaze_err_last pid addr = BLAZE_ERR_OK)
    (hres : s.blaze_symbolize_process_abs_addrs pid addr = some res)
    (hcnt : res.cnt = 0) :
    (s.Symbolize pid addr).1 = some (UnknownSymbol, none) ∧ UnknownSymbol = "[Unknown]" := by
  refine ⟨?_, rfl⟩
  simp [Symbolizer.Symbolize, hOk, hres, hcnt]

/-- C3 on a backend that succeeds with an empty result. -/
theorem Symbolize_zero_results_witness :
    (fakeOk { syms := [] }).blaze_err_last 7 4096 = BLAZE_ERR_OK ∧
    (fakeOk { syms := [] }).blaze_symbolize_process_abs_addrs 7 4096 = some { syms := [] } ∧
    blaze_result.cnt { syms := [] } = 0 ∧
    ((fakeOk { syms := [] }).Symbolize 7 4096).1 = some ("[Unknown]", none) :=
  ⟨rfl, rfl, rfl, (Symbolize_zero_results (fakeOk { syms := [] }) 7 4096 { syms := [] }
    rfl rfl rfl).1⟩

/-- C4 as stated fails: for a result at address 4096 and offset 16 with an empty name the
code returns `"4096 : 16 <No symbol>"`, which is not `"4096 : 16 <no symbol>"`. -/
theorem Symbolize_no_symbol_literal_counterexample :
    ((fakeOk { syms := [{ name := some "", addr := 4096, offset := 16 }] }).Symbolize 7 4100).1
        = some ("4096 : 16 <No symbol>", none) ∧
    ((fakeOk { syms := [{ name := some "", addr := 4096, offset := 16 }] }).Symbolize 7 4100).1
        ≠ some ("4096 : 16 <no symbol>", none) := by
  constructor <;> decide

/-- C4 amended: when the backend reports no error and returns a result whose first entry
has an empty name, Symbolize returns with a nil error the string
`"<addr> : <offset> <No symbol>"` (capital N), `<addr>` and `<offset>` being the address
and offset of that entry in decimal digits; when the name is non-empty it returns exactly
that name with a nil error. -/
theorem Symbolize_found_name_or_fallback (s : Symbolizer) (pid addr : Nat) (sym : blaze_sym)
    (rest : List blaze_sym) (hOk : s.blaze_err_last pid addr = BLAZE_ERR_OK)
    (hres : s.blaze_symbolize_process_abs_addrs pid addr = some { syms := sym :: rest }) :
    (GoString sym.name = "" →
      (s.Symbolize pid addr).1 =
        some (String.mk (Nat.toDigits 10 sym.addr) ++ " : " ++
              String.mk (Nat.toDigits 10 sym.offset) ++ " <No symbol>", none)) ∧
    (GoString sym.name ≠ "" →
      (s.Symbolize pid addr).1 = some (GoString sym.name, none)) := by
  rw [Symbolize_found s pid addr sym rest hOk hres]
  constructor
  · intro hn
    simp only [hn, if_true]
    rfl
  · intro hn
    simp only [hn, if_false]

/-- C4 amended, on a backend returning one entry without a name. -/
theorem Symbolize_found_name_or_fallback_witness :
    (fakeOk { syms := [{ name := none, addr := 4096, offset := 16 }] }).blaze_err_last 7 4100
        = BLAZE_ERR_OK ∧
    (fakeOk { syms := [{ name := none, addr := 4096, offset := 16 }]
        }).blaze_symbolize_process_abs_addrs 7 4100
        = some { syms := [{ name := none, addr := 4096, offset := 16 }] } ∧
    GoString (none : Option String) = "" ∧
    ((fakeOk { syms := [{ name := none, addr := 4096, offset := 16 }] }).Symbolize 7 4100).1
        = some ("4096 : 16 <No symbol>", none) :=
  ⟨rfl, rfl, rfl, (Symbolize_found_name_or_fallback
    (fakeOk { syms := [{ name := none, addr := 4096, offset := 16 }] }) 7 4100
    { name := none, addr := 4096, offset := 16 } [] rfl rfl).1 rfl⟩

/-- On both found paths (last error OK, `cnt` not zero, name empty or not) Symbolize issues
exactly one `blaze_result_free`, as the last event of the call and with no read of the
buffer after it: the one buffer obtained is released exactly once before returning. -/
theorem Symbolize_found_releases_once (s : Symbolizer) (pid addr : Nat) (res : blaze_result)
    (hOk : s.blaze_err_last pid addr = BLAZE_ERR_OK)
    (hres : s.blaze_symbolize_process_abs_addrs pid addr = some res) (hcnt : res.cnt ≠ 0) :
    released (s.Symbolize pid addr).2 = 1 ∧
    obtained (s.Symbolize pid addr).2 = 1 ∧
    (s.Symbolize pid addr).2.getLast? = some Event.blaze_result_free ∧
    readsAfterFree (s.Symbolize pid addr).2 = 0 ∧
    (s.Symbolize pid addr).1.isSome = true := by
  obtain ⟨syms⟩ := res
  cases syms with
  | nil => exact absurd rfl hcnt
  | cons sym rest =>
    rw [Symbolize_found s pid addr sym rest hOk hres]
    refine ⟨?_, ?_, ?_, ?_, ?_⟩
    · simp [released, List.count_cons]
    · simp [obtained, List.countP_cons]
    · simp
    · simp [readsAfterFree, Event.isBufferRead]
    · simp

/-- C5 fails on the code at a backend that reports no error and returns a buffer with
`cnt = 0`: the resolve call handed back a buffer (its `cnt` field is read), Symbolize
returns the sentinel with a nil error, and the log holds no `blaze_result_free`, so the
buffer that was obtained is not released before returning, whereas on the found path of
the same backend type the buffer is released exactly once. -/
theorem Symbolize_zero_result_buffer_not_released :
    ((fakeOk { syms := [] }).Symbolize 7 4096).1 = some (UnknownSymbol, none) ∧
    ((fakeOk { syms := [] }).Symbolize 7 4096).2 =
      [Event.blaze_symbolize_process_abs_addrs 7 4096 (some { syms := [] }),
       Event.blaze_err_last BLAZE_ERR_OK, Event.read_cnt] ∧
    obtained ((fakeOk { syms := [] }).Symbolize 7 4096).2 = 1 ∧
    released ((fakeOk { syms := [] }).Symbolize 7 4096).2 = 0 ∧
    ¬ released ((fakeOk { syms := [] }).Symbolize 7 4096).2 =
        obtained ((fakeOk { syms := [] }).Symbolize 7 4096).2 ∧
    released ((fakeOk { syms := [{ name := some "main", addr := 4096, offset := 16 }]
        }).Symbolize 7 4100).2 =
      obtained ((fakeOk { syms := [{ name := some "main", addr := 4096, offset := 16 }]
        }).Symbolize 7 4100).2 := by
  refine ⟨?_, ?_, ?_, ?_, ?_, ?_⟩ <;> decide

end blazesym

namespace rocksdb

/-- Truncating division by 1000 in terms of flooring division. -/
theorem tdiv_1000 (d : Int) :
    Int.tdiv d 1000 = if 0 ≤ d then d / 1000 else -((-d) / 1000) := by
  split
  · next h => exact Int.tdiv_eq_ediv h (by decide)
  · next h =>
    have h1 : Int.tdiv (-(-d)) 1000 = -(Int.tdiv (-d) 1000) := Int.neg_tdiv (-d) 1000
    rw [Int.neg_neg] at h1
    rw [h1, Int.tdiv_eq_ediv (by omega) (by decide)]

/-- Timeout round trip for an `int64` duration: the getter returns the forwarded
microsecond count times 1000, with no wrap-around on the way. -/
theorem GetTimeout_SetTimeout (options : WaitForCompactOptions) (d : Int)
    (hlo : -2 ^ 63 ≤ d) (hhi : d < 2 ^ 63) :
    (options.SetTimeout d).GetTimeout = Duration_Microseconds d * 1000 := by
  have hq := tdiv_1000 d
  simp only [WaitForCompactOptions.GetTimeout, WaitForCompactOptions.SetTimeout,
    Duration_Microseconds, wrapUint64, wrapInt64, time_Microsecond]
  generalize Int.tdiv d 1000 = q at hq ⊢
  have hnn : (0 : Int) ≤ q % 2 ^ 64 := Int.emod_nonneg q (by decide)
  rw [Int.toNat_of_nonneg hnn]
  split at hq <;> omega

/-- C6 as stated fails: a timeout of one nanosecond is forwarded as 0 microseconds and
read back as 0, not as 1. -/
theorem timeout_roundtrip_counterexample :
    (WaitForCompactOptions.zero.SetTimeout 1).cOptions.timeout = 0 ∧
    (WaitForCompactOptions.zero.SetTimeout 1).GetTimeout = 0 ∧
    (WaitForCompactOptions.zero.SetTimeout 1).GetTimeout ≠ 1 := by
  refine ⟨?_, ?_, ?_⟩ <;> decide

/-- C6 amended: for every `time.Duration` d that is a whole number of microseconds
(d a multiple of 1000 nanoseconds), zero included, GetTimeout after SetTimeout(d) returns
exactly d, the native layer keeping the forwarded unsigned 64-bit microsecond count
verbatim; SetTimeout(0) forwards 0. -/
theorem timeout_roundtrip_whole_microseconds (options : WaitForCompactOptions) (d : Int)
    (hlo : -2 ^ 63 ≤ d) (hhi : d < 2 ^ 63) (hmul : d % 1000 = 0) :
    (options.SetTimeout d).GetTimeout = d ∧
    (options.SetTimeout 0).cOptions.timeout = 0 ∧
    (options.SetTimeout 0).GetTimeout = 0 := by
  refine ⟨?_, by simp [WaitForCompactOptions.SetTimeout, Duration_Microseconds, wrapUint64],
    ?_⟩
  · rw [GetTimeout_SetTimeout options d hlo hhi, Duration_Microseconds, tdiv_1000]
    split <;> omega
  · rw [GetTimeout_SetTimeout options 0 (by decide) (by decide)]
    simp [Duration_Microseconds]

/-- C6 amended, at a timeout of minus two milliseconds. -/
theorem timeout_roundtrip_whole_microseconds_witness :
    (-2 ^ 63 : Int) ≤ -2000000 ∧ (-2000000 : Int) < 2 ^ 63 ∧ (-2000000 : Int) % 1000 = 0 ∧
    (WaitForCompactOptions.zero.SetTimeout (-2000000)).GetTimeout = -2000000 :=
  ⟨by decide, by decide, by decide,
    (timeout_roundtrip_whole_microseconds WaitForCompactOptions.zero (-2000000)
      (by decide) (by decide) (by decide)).1⟩

/-- C7: for every boolean v and each of the three wait-policy flags the getter called
after the setter with v returns v, the native layer keeping the forwarded byte verbatim;
`CharToBool (BoolToChar v) = v`, `BoolToChar true = 1` and `BoolToChar false = 0`. -/
theorem wait_flags_roundtrip (options : WaitForCompactOptions) (v : Bool) :
    (options.SetAbortOnPause v).GetAbortOnPause = v ∧
    (options.SetFlush v).GetFlush = v ∧
    (options.SetCloseDB v).GetCloseDB = v ∧
    (options.SetAbortOnPause v).cOptions.abort_on_pause = BoolToChar v ∧
    (options.SetFlush v).cOptions.flush = BoolToChar v ∧
    (options.SetCloseDB v).cOptions.close_db = BoolToChar v ∧
    CharToBool (BoolToChar v) = v ∧
    BoolToChar true = 1 ∧ BoolToChar false = 0 := by
  cases v <;> refine ⟨?_, ?_, ?_, ?_, ?_, ?_, ?_, ?_, ?_⟩ <;> rfl

/-- C8: NewWriteOptions issues one create call and then, flag by flag and in the order
of the source, no call for a flag that is false and one call of that flag's own setter
with the native true value for a flag that is true; the number of setter calls is the
number of true flags, and a field whose flag is false is still at its native default. -/
theorem NewWriteOptions_calls (syncOnWrite disableWAL ignoreMissingColumnFamilies
    failOnSlowDown lowPriority : Bool) (n : Native) :
    (NewWriteOptions syncOnWrite disableWAL ignoreMissingColumnFamilies failOnSlowDown
        lowPriority n).1.cWriteOptions = n.next ∧
    (NewWriteOptions syncOnWrite disableWAL ignoreMissingColumnFamilies failOnSlowDown
        lowPriority n).2.log =
      n.log ++ issued n (NewWriteOptions syncOnWrite disableWAL ignoreMissingColumnFamilies
        failOnSlowDown lowPriority n).2 ∧
    issued n (NewWriteOptions syncOnWrite disableWAL ignoreMissingColumnFamilies failOnSlowDown
        lowPriority n).2 =
      [Call.rocksdb_writeoptions_create n.next] ++
      (if syncOnWrite then [Call.rocksdb_writeoptions_set_sync n.next 1] else []) ++
      (if disableWAL then [Call.rocksdb_writeoptions_disable_WAL n.next 1] else []) ++
      (if ignoreMissingColumnFamilies then
        [Call.rocksdb_writeoptions_set_ignore_missing_column_families n.next 1] else []) ++
      (if failOnSlowDown then [Call.rocksdb_writeoptions_set_no_slowdown n.next 1] else []) ++
      (if lowPriority then [Call.rocksdb_writeoptions_set_low_pri n.next 1] else []) ∧
    (issued n (NewWriteOptions syncOnWrite disableWAL ignoreMissingColumnFamilies
        failOnSlowDown lowPriority n).2).countP Call.isWriteSetter =
      syncOnWrite.toNat + disableWAL.toNat + ignoreMissingColumnFamilies.toNat +
        failOnSlowDown.toNat + lowPriority.toNat ∧
    fieldAfter (Call.sync? n.next) (issued n (NewWriteOptions syncOnWrite disableWAL
        ignoreMissingColumnFamilies failOnSlowDown lowPriority n).2) =
      (if syncOnWrite then some 1 else none) ∧
    fieldAfter (Call.disableWAL? n.next) (issued n (NewWriteOptions syncOnWrite disableWAL
        ignoreMissingColumnFamilies failOnSlowDown lowPriority n).2) =
      (if disableWAL then some 1 else none) ∧
    fieldAfter (Call.ignoreMissingColumnFamilies? n.next) (issued n (NewWriteOptions
        syncOnWrite disableWAL ignoreMissingColumnFamilies failOnSlowDown lowPriority n).2) =
      (if ignoreMissingColumnFamilies then some 1 else none) ∧
    fieldAfter (Call.noSlowdown? n.next) (issued n (NewWriteOptions syncOnWrite disableWAL
        ignoreMissingColumnFamilies failOnSlowDown lowPriority n).2) =
      (if failOnSlowDown then some 1 else none) ∧
    fieldAfter (Call.lowPri? n.next) (issued n (NewWriteOptions syncOnWrite disableWAL
        ignoreMissingColumnFamilies failOnSlowDown lowPriority n).2) =
      (if lowPriority then some 1 else none) := by
  cases syncOnWrite <;> cases disableWAL <;> cases ignoreMissingColumnFamilies <;>
    cases failOnSlowDown <;> cases lowPriority <;>
    simp [NewWriteOptions, NewDefaultWriteOptions, Native.emit, issued, fieldAfter,
      Call.isWriteSetter, Call.sync?, Call.disableWAL?, Call.ignoreMissingColumnFamilies?,
      Call.noSlowdown?, Call.lowPri?, BOOL_CHAR_TRUE, BOOL_INT_TRUE, List.countP_cons,
      List.filterMap_cons]

/-- C9 as stated fails: with both flags false NewReadOptions still issues the two native
setter calls, with argument 0, so neither field is left at its native default. -/
theorem NewReadOptions_false_flags_counterexample :
    issued Native.fresh (NewReadOptions false false Native.fresh).2 =
      [Call.rocksdb_readoptions_create 1,
       Call.rocksdb_readoptions_set_verify_checksums 1 0,
       Call.rocksdb_readoptions_set_fill_cache 1 0] ∧
    (issued Native.fresh (NewReadOptions false false Native.fresh).2).countP
        Call.isReadSetter = 2 ∧
    fieldAfter (Call.verifyChecksums? 1)
        (issued Native.fresh (NewReadOptions false false Native.fresh).2) ≠ none ∧
    fieldAfter (Call.fillCache? 1)
        (issued Native.fresh (NewReadOptions false false Native.fresh).2) ≠ none := by
  refine ⟨?_, ?_, ?_, ?_⟩ <;> decide

/-- C9 amended: NewReadOptions issues one create call and then, for every pair of flags,
exactly one native setter call per flag whatever its value, first verify_checksums and
then fill_cache, each forwarding `BoolToChar` of the flag (1 for true, 0 for false); both
fields are therefore set to the flag passed and not left at the native default. -/
theorem NewReadOptions_calls (verifyChecksum fillCache : Bool) (n : Native) :
    (NewReadOptions verifyChecksum fillCache n).1.cReadOptions = n.next ∧
    (NewReadOptions verifyChecksum fillCache n).2.log =
      n.log ++ issued n (NewReadOptions verifyChecksum fillCache n).2 ∧
    issued n (NewReadOptions verifyChecksum fillCache n).2 =
      [Call.rocksdb_readoptions_create n.next,
       Call.rocksdb_readoptions_set_verify_checksums n.next (BoolToChar verifyChecksum),
       Call.rocksdb_readoptions_set_fill_cache n.next (BoolToChar fillCache)] ∧
    (issued n (NewReadOptions verifyChecksum fillCache n).2).countP Call.isReadSetter = 2 ∧
    fieldAfter (Call.verifyChecksums? n.next)
        (issued n (NewReadOptions verifyChecksum fillCache n).2) =
      some (if verifyChecksum then 1 else 0) ∧
    fieldAfter (Call.fillCache? n.next)
        (issued n (NewReadOptions verifyChecksum fillCache n).2) =
      some (if fillCache then 1 else 0) := by
  cases verifyChecksum <;> cases fillCache <;>
    simp [NewReadOptions, NewDefaultReadOptions, ReadOptions.SetVerifyChecksums,
      ReadOptions.SetFillCache, Native.emit, issued, fieldAfter, Call.isReadSetter,
      Call.verifyChecksums?, Call.fillCache?, BoolToChar, BOOL_CHAR_TRUE, BOOL_CHAR_FALSE,
      List.countP_cons, List.filterMap_cons]

/-- C10: for every Options handle FreeOptions issues exactly one destroy of the top-level
native handle, as its last call; when a nested block-cache configuration is present it is
released exactly once, before that destroy, and when none is present no nested release is
issued.  A handle from NewOptions has none, and SetLRUCacheSize and SetFullBloomFilter
each leave one in place. -/
theorem FreeOptions_calls (options : Options) (n : Native) (capacity fullBloomBits : Int) :
    issued n (options.FreeOptions n) =
      (match options.blockBasedOptions with
        | some b => [Call.BlockBasedOptions_FreeBlockBasedOptions b.cBlockBasedOptions]
        | none => []) ++
      [Call.rocksdb_options_destroy options.cOptions] ∧
    (issued n (options.FreeOptions n)).countP Call.isOptionsDestroy = 1 ∧
    (issued n (options.FreeOptions n)).getLast? =
      some (Call.rocksdb_options_destroy options.cOptions) ∧
    (issued n (options.FreeOptions n)).countP Call.isNestedRelease =
      (if options.blockBasedOptions.isSome then 1 else 0) ∧
    (NewOptions n).1.blockBasedOptions = none ∧
    (options.SetLRUCacheSize capacity n).1.blockBasedOptions.isSome = true ∧
    (options.SetFullBloomFilter fullBloomBits n).1.blockBasedOptions.isSome = true := by
  obtain ⟨cOptions, bbo⟩ := options
  cases bbo <;>
    simp [Options.FreeOptions, BlockBasedOptions.FreeBlockBasedOptions, Native.emit, issued,
      Call.isOptionsDestroy, Call.isNestedRelease, List.countP_cons, NewOptions,
      Options.SetLRUCacheSize, Options.SetFullBloomFilter, NewBlockBasedOptions,
      BlockBasedOptions.SetLRUCache, BlockBasedOptions.SetFullBloomFilter]

end rocksdb

namespace rocksdb

/-- C11 as stated fails: a size of -1 is not rejected; SetWriteBufferSize, and likewise
the two other setters, forwards it to the native library as 18446744073709551615. -/
theorem size_setters_negative_counterexample :
    issued Native.fresh
        (Options.SetWriteBufferSize { cOptions := 1, blockBasedOptions := none } (-1)
          Native.fresh) =
      [Call.rocksdb_options_set_write_buffer_size 1 18446744073709551615] ∧
    issued Native.fresh
        (Options.SetTargetFileSizeBase { cOptions := 1, blockBasedOptions := none } (-1)
          Native.fresh) =
      [Call.rocksdb_options_set_target_file_size_base 1 18446744073709551615] ∧
    issued Native.fresh
        (Options.SetMaxBytesForLevelBase { cOptions := 1, blockBasedOptions := none } (-1)
          Native.fresh) =
      [Call.rocksdb_options_set_max_bytes_for_level_base 1 18446744073709551615] ∧
    ((18446744073709551615 : Nat) : Int) ≠ -1 := by
  refine ⟨?_, ?_, ?_, ?_⟩ <;> decide

/-- C11 amended: none of the three signed size setters validates its range; for every
Go `int` size each issues exactly one native call, forwarding the size converted to an
unsigned 64-bit integer: a non-negative size is forwarded verbatim and a negative size
`s` is forwarded as `s + 2 ^ 64`. -/
theorem size_setters_forward_converted (options : Options) (n : Native) (size : Int)
    (hlo : -2 ^ 63 ≤ size) (hhi : size < 2 ^ 63) :
    issued n (options.SetWriteBufferSize size n) =
      [Call.rocksdb_options_set_write_buffer_size options.cOptions (wrapUint64 size)] ∧
    issued n (options.SetTargetFileSizeBase size n) =
      [Call.rocksdb_options_set_target_file_size_base options.cOptions (wrapUint64 size)] ∧
    issued n (options.SetMaxBytesForLevelBase size n) =
      [Call.rocksdb_options_set_max_bytes_for_level_base options.cOptions
        (wrapUint64 size)] ∧
    ((wrapUint64 size : Nat) : Int) = (if 0 ≤ size then size else size + 2 ^ 64) := by
  refine ⟨issued_emit _ _, issued_emit _ _, issued_emit _ _, ?_⟩
  have hnn : (0 : Int) ≤ size % 2 ^ 64 := Int.emod_nonneg size (by decide)
  rw [wrapUint64, Int.toNat_of_nonneg hnn]
  split <;> omega

/-- C11 amended, at a size of 64 MiB: the value is forwarded verbatim. -/
theorem size_setters_forward_converted_witness :
    (-2 ^ 63 : Int) ≤ 67108864 ∧ (67108864 : Int) < 2 ^ 63 ∧
    issued Native.fresh
        (Options.SetWriteBufferSize { cOptions := 1, blockBasedOptions := none } 67108864
          Native.fresh) =
      [Call.rocksdb_options_set_write_buffer_size 1 67108864] :=
  ⟨by decide, by decide,
    (size_setters_forward_converted { cOptions := 1, blockBasedOptions := none } Native.fresh
      67108864 (by decide) (by decide)).1⟩

/-- The loop of SetCompressionPerLevel overwrites the zeroed tail of the slice with the
converted values, leaving the part already written untouched. -/
theorem fillLevels_eq (levelValues : List CompressionType) (done : List Int) :
    fillLevels done.length levelValues (done ++ List.replicate levelValues.length 0) =
      done ++ levelValues.map (fun v => wrapInt32 (v : Int)) := by
  induction levelValues generalizing done with
  | nil => simp [fillLevels]
  | cons v rest ih =>
    have h := ih (done ++ [wrapInt32 (v : Int)])
    simp only [List.length_append, List.length_singleton, List.append_assoc,
      List.singleton_append] at h
    simp only [fillLevels, List.length_cons, List.replicate_succ, List.map_cons]
    rw [List.set_append_right _ _ (Nat.le_refl _)]
    simpa using h

/-- For a non-empty list SetCompressionPerLevel completes and makes one native call that
passes the level count and an array of that length holding the values converted to
C `int`, in order. -/
theorem SetCompressionPerLevel_nonempty (options : Options) (n : Native)
    (v : CompressionType) (rest : List CompressionType) :
    options.SetCompressionPerLevel (v :: rest) n =
      some (n.emit (Call.rocksdb_options_set_compression_per_level options.cOptions
        ((v :: rest).map (fun v => wrapInt32 (v : Int))) (v :: rest).length)) := by
  have h := fillLevels_eq (v :: rest) []
  simp only [List.length_nil, List.nil_append] at h
  simp only [Options.SetCompressionPerLevel, h]
  rfl

/-- A compression type below `2 ^ 31` is unchanged by the conversion to C `int`. -/
theorem wrapInt32_of_lt (v : CompressionType) (h : v < 2 ^ 31) : wrapInt32 (v : Int) = v := by
  have h1 : ((v : Nat) : Int) < 2 ^ 31 := by exact_mod_cast h
  have h0 : (0 : Int) ≤ ((v : Nat) : Int) := Int.ofNat_nonneg v
  unfold wrapInt32
  omega

/-- C13 fails on the code at the empty list: `cValues` is empty, the index expression
`cValues[0]` is out of range, and no native call is made; only for a non-empty list does
the call go through. -/
theorem SetCompressionPerLevel_empty_fails (options : Options) (n : Native) :
    options.SetCompressionPerLevel [] n = none ∧
    fillLevels 0 [] (List.replicate ([] : List CompressionType).length 0) = [] := by
  constructor <;> rfl

/-- C14: for every `time.Duration` d (an `int64` nanosecond count) SetTimeout forwards
`d / 1000` truncated toward zero and reduced modulo `2 ^ 64`; GetTimeout after
SetTimeout(d) returns `d - (d rem 1000)`; the round trip returns d exactly when d is a
multiple of 1000 nanoseconds; and every d of absolute value below 1000 is forwarded
as 0. -/
theorem timeout_truncates_to_microseconds (options : WaitForCompactOptions) (d : Int)
    (hlo : -2 ^ 63 ≤ d) (hhi : d < 2 ^ 63) :
    (options.SetTimeout d).cOptions.timeout = ((Int.tdiv d 1000) % 2 ^ 64).toNat ∧
    (options.SetTimeout d).GetTimeout = d - Int.tmod d 1000 ∧
    ((options.SetTimeout d).GetTimeout = d ↔ d % 1000 = 0) ∧
    (|d| < 1000 → (options.SetTimeout d).cOptions.timeout = 0) := by
  have hget := GetTimeout_SetTimeout options d hlo hhi
  have hdef : Int.tmod d 1000 = d - 1000 * Int.tdiv d 1000 := Int.tmod_def d 1000
  have hq := tdiv_1000 d
  refine ⟨rfl, ?_, ?_, ?_⟩
  · rw [hget, Duration_Microseconds, hdef]
    omega
  · rw [hget, Duration_Microseconds]
    split at hq <;> omega
  · intro habs
    have h2 := abs_lt.mp habs
    have hz : Int.tdiv d 1000 = 0 := by
      split at hq <;> omega
    simp [WaitForCompactOptions.SetTimeout, Duration_Microseconds, wrapUint64, hz]

/-- C14 at a timeout of -1500 ns: -1 microsecond is forwarded, as `2 ^ 64 - 1`, and
-1000 ns is read back. -/
theorem timeout_truncates_to_microseconds_witness :
    (-2 ^ 63 : Int) ≤ -1500 ∧ (-1500 : Int) < 2 ^ 63 ∧
    (WaitForCompactOptions.zero.SetTimeout (-1500)).cOptions.timeout
      = 18446744073709551615 ∧
    (WaitForCompactOptions.zero.SetTimeout (-1500)).GetTimeout = -1000 :=
  have t := timeout_truncates_to_microseconds WaitForCompactOptions.zero (-1500)
    (by decide) (by decide)
  ⟨by decide, by decide, t.1, t.2.1⟩

/-- A cache setter called on a handle that already has a nested configuration allocates
nothing, keeps that configuration and registers it once. -/
theorem CacheOp.run_of_some (op : CacheOp) (o : Options) (b : BlockBasedOptions) (n : Native)
    (h : o.blockBasedOptions = some b) :
    ∃ (calls : List Call) (b1 : BlockBasedOptions),
      (op.run (o, n)).1.cOptions = o.cOptions ∧
      (op.run (o, n)).1.blockBasedOptions = some b1 ∧
      b1.cBlockBasedOptions = b.cBlockBasedOptions ∧
      (op.run (o, n)).2.log = n.log ++ calls ∧
      calls.filter Call.isNestedAlloc = [] ∧
      calls.filter Call.isRegistration =
        [Call.rocksdb_options_set_block_based_table_factory o.cOptions b.cBlockBasedOptions] := by
  cases op with
  | SetLRUCacheSize capacity =>
    refine ⟨[Call.BlockBasedOptions_SetLRUCache b.cBlockBasedOptions capacity n.next,
      Call.rocksdb_options_set_block_based_table_factory o.cOptions b.cBlockBasedOptions],
      { b with lruCache := some { cCache := n.next } }, ?_, ?_, ?_, ?_, ?_, ?_⟩ <;>
    simp [CacheOp.run, Options.SetLRUCacheSize, h, BlockBasedOptions.SetLRUCache, Native.emit,
      Call.isNestedAlloc, Call.isRegistration]
  | SetFullBloomFilter fullBloomBits =>
    refine ⟨[Call.BlockBasedOptions_SetFullBloomFilter b.cBlockBasedOptions fullBloomBits,
      Call.rocksdb_options_set_block_based_table_factory o.cOptions b.cBlockBasedOptions],
      b, ?_, ?_, ?_, ?_, ?_, ?_⟩ <;>
    simp [CacheOp.run, Options.SetFullBloomFilter, h, BlockBasedOptions.SetFullBloomFilter,
      Native.emit, Call.isNestedAlloc, Call.isRegistration]

/-- A cache setter called on a handle without a nested configuration allocates one, with
the next free handle, and registers it once. -/
theorem CacheOp.run_of_none (op : CacheOp) (o : Options) (n : Native)
    (h : o.blockBasedOptions = none) :
    ∃ (calls : List Call) (b1 : BlockBasedOptions),
      (op.run (o, n)).1.cOptions = o.cOptions ∧
      (op.run (o, n)).1.blockBasedOptions = some b1 ∧
      b1.cBlockBasedOptions = n.next ∧
      (op.run (o, n)).2.log = n.log ++ calls ∧
      calls.filter Call.isNestedAlloc = [Call.NewBlockBasedOptions n.next] ∧
      calls.filter Call.isRegistration =
        [Call.rocksdb_options_set_block_based_table_factory o.cOptions n.next] := by
  cases op with
  | SetLRUCacheSize capacity =>
    refine ⟨[Call.NewBlockBasedOptions n.next,
      Call.BlockBasedOptions_SetLRUCache n.next capacity (n.next + 1),
      Call.rocksdb_options_set_block_based_table_factory o.cOptions n.next],
      { cBlockBasedOptions := n.next, lruCache := some { cCache := n.next + 1 } },
      ?_, ?_, ?_, ?_, ?_, ?_⟩ <;>
    simp [CacheOp.run, Options.SetLRUCacheSize, h, NewBlockBasedOptions,
      BlockBasedOptions.SetLRUCache, Native.emit, Call.isNestedAlloc, Call.isRegistration]
  | SetFullBloomFilter fullBloomBits =>
    refine ⟨[Call.NewBlockBasedOptions n.next,
      Call.BlockBasedOptions_SetFullBloomFilter n.next fullBloomBits,
      Call.rocksdb_options_set_block_based_table_factory o.cOptions n.next],
      { cBlockBasedOptions := n.next, lruCache := none }, ?_, ?_, ?_, ?_, ?_, ?_⟩ <;>
    simp [CacheOp.run, Options.SetFullBloomFilter, h, NewBlockBasedOptions,
      BlockBasedOptions.SetFullBloomFilter, Native.emit, Call.isNestedAlloc,
      Call.isRegistration]

/-- A sequence of cache setters on a handle that already has a nested configuration
allocates nothing and registers that same configuration once per call. -/
theorem runCacheOps_of_some (ops : List CacheOp) (o : Options) (b : BlockBasedOptions)
    (n : Native) (h : o.blockBasedOptions = some b) :
    ∃ (calls : List Call) (b1 : BlockBasedOptions),
      (runCacheOps ops (o, n)).1.cOptions = o.cOptions ∧
      (runCacheOps ops (o, n)).1.blockBasedOptions = some b1 ∧
      b1.cBlockBasedOptions = b.cBlockBasedOptions ∧
      (runCacheOps ops (o, n)).2.log = n.log ++ calls ∧
      calls.filter Call.isNestedAlloc = [] ∧
      calls.filter Call.isRegistration =
        List.replicate ops.length
          (Call.rocksdb_options_set_block_based_table_factory o.cOptions
            b.cBlockBasedOptions) := by
  induction ops generalizing o b n with
  | nil => exact ⟨[], b, rfl, h, rfl, by simp [runCacheOps], rfl, rfl⟩
  | cons op rest ih =>
    obtain ⟨c1, b1, hc, hb, hh, hl, ha, hr⟩ := CacheOp.run_of_some op o b n h
    obtain ⟨c2, b2, hc2, hb2, hh2, hl2, ha2, hr2⟩ :=
      ih (op.run (o, n)).1 b1 (op.run (o, n)).2 hb
    refine ⟨c1 ++ c2, b2, ?_, ?_, ?_, ?_, ?_, ?_⟩
    · simpa [runCacheOps, hc] using hc2
    · simpa [runCacheOps] using hb2
    · rw [hh2, hh]
    · have : runCacheOps (op :: rest) (o, n) = runCacheOps rest (op.run (o, n)) := rfl
      rw [this, hl2, hl, List.append_assoc]
    · rw [List.filter_append, ha, ha2]; rfl
    · rw [List.filter_append, hr, hr2, hc, hh, List.length_cons, List.replicate_succ]
      rfl

/-- The calls of a sequence of cache setters started on a handle without a nested
configuration: one allocation when the sequence is not empty, and one registration of
that allocation per call. -/
theorem runCacheOps_of_none (ops : List CacheOp) (o : Options) (n : Native)
    (h : o.blockBasedOptions = none) :
    (issued n (runCacheOps ops (o, n)).2).filter Call.isNestedAlloc =
      (if ops = [] then [] else [Call.NewBlockBasedOptions n.next]) ∧
    (issued n (runCacheOps ops (o, n)).2).filter Call.isRegistration =
      List.replicate ops.length
        (Call.rocksdb_options_set_block_based_table_factory o.cOptions n.next) ∧
    (runCacheOps ops (o, n)).1.blockBasedOptions.map BlockBasedOptions.cBlockBasedOptions =
      (if ops = [] then none else some n.next) := by
  cases ops with
  | nil => simp [runCacheOps, issued, h]
  | cons op rest =>
    obtain ⟨c1, b1, hc, hb, hh, hl, ha, hr⟩ := CacheOp.run_of_none op o n h
    obtain ⟨c2, b2, hc2, hb2, hh2, hl2, ha2, hr2⟩ :=
      runCacheOps_of_some rest (op.run (o, n)).1 b1 (op.run (o, n)).2 hb
    have hstep : runCacheOps (op :: rest) (o, n) = runCacheOps rest (op.run (o, n)) := rfl
    have hlog : (runCacheOps (op :: rest) (o, n)).2.log = n.log ++ (c1 ++ c2) := by
      rw [hstep, hl2, hl, List.append_assoc]
    have hiss : issued n (runCacheOps (op :: rest) (o, n)).2 = c1 ++ c2 := by
      simp [issued, hlog]
    refine ⟨?_, ?_, ?_⟩
    · rw [hiss, List.filter_append, ha, ha2]; simp
    · rw [hiss, List.filter_append, hr, hr2, hc, hh, List.length_cons, List.replicate_succ]
      rfl
    · rw [hstep, hb2]; simp [hh2, hh]

/-- C12: for every finite sequence of SetLRUCacheSize and SetFullBloomFilter calls on a
handle created by NewOptions, the nested block-cache configuration is allocated exactly
once when the sequence is not empty, by its first call; every call registers that same
nested configuration with the parent handle, one registration per call; and before the
first call the handle has no nested configuration and GetCache returns nil. -/
theorem cache_setters_allocate_once (ops : List CacheOp) (n : Native) :
    (NewOptions n).1.blockBasedOptions = none ∧
    (NewOptions n).1.GetCache = none ∧
    (issued (NewOptions n).2 (runCacheOps ops (NewOptions n)).2).filter Call.isNestedAlloc =
      (if ops = [] then [] else [Call.NewBlockBasedOptions (n.next + 1)]) ∧
    (issued (NewOptions n).2 (runCacheOps (ops.take 1) (NewOptions n)).2).filter
        Call.isNestedAlloc =
      (if ops = [] then [] else [Call.NewBlockBasedOptions (n.next + 1)]) ∧
    (issued (NewOptions n).2 (runCacheOps ops (NewOptions n)).2).filter Call.isRegistration =
      List.replicate ops.length
        (Call.rocksdb_options_set_block_based_table_factory n.next (n.next + 1)) ∧
    (runCacheOps ops (NewOptions n)).1.blockBasedOptions.map
        BlockBasedOptions.cBlockBasedOptions =
      (if ops = [] then none else some (n.next + 1)) := by
  have hnone : (NewOptions n).1.blockBasedOptions = none := rfl
  have hall := runCacheOps_of_none ops (NewOptions n).1 (NewOptions n).2 hnone
  have hfirst := runCacheOps_of_none (ops.take 1) (NewOptions n).1 (NewOptions n).2 hnone
  have htake : (ops.take 1 = []) ↔ (ops = []) := by
    cases ops <;> simp
  refine ⟨rfl, rfl, hall.1, ?_, hall.2.1, hall.2.2⟩
  rw [hfirst.1]
  simp only [htake]
  rfl

end rocksdb
